import Mathlib

/-!
# Verification of the avatar-services orchestration layer

Shallow embedding of the job-orchestration core of the avatar-services
repository (FastAPI front door `api/main.py` + `api/capture.py`, Valkey/Redis
store client `api/valkey.py`, worker dispatch loop `worker/worker.py`,
capture pipeline skeleton `worker/capture_processor.py`, and the Rhubarb
output parser in `worker/lipsync.py`).

Modelling conventions:
* Python floats are modelled by `ℚ`; `f"{x:.2f}"` formatting and
  `round(x, 2)` use round-half-even, the rounding used by Python float
  formatting, and `int(x)` is truncation toward zero.
* The Valkey store is a record of key/value maps; Redis lists are Lean
  lists with `LPUSH` = cons at the head, `RPUSH` = append at the tail and
  `(B)RPOP` = removal at the tail.
* External media collaborators (Piper TTS, Rhubarb, ffmpeg, MediaPipe) are
  black boxes per §6 of the design document: their outcome on one job is a
  parameter of the worker's pipeline functions.
* TTL expiry and wall-clock time are not modelled; the `time_ns` entropy of
  `generate_render_id` is an explicit `Nat` parameter.
-/

namespace AvatarServices

/-! ## SHA-256 (as used by `hashlib.sha256(...).hexdigest()` in api/valkey.py) -/

/-- Reduce a natural number to a 32-bit word. -/

def w32 (n : Nat) : Nat := n % 4294967296

/-- Right rotation of a 32-bit word by `b` bits. -/

def rotr (b n : Nat) : Nat := w32 ((n >>> b) ||| (n <<< (32 - b)))

/-- The 64 SHA-256 round constants (FIPS 180-4, written in decimal). -/

def sha256K : List Nat :=
  [1116352408, 1899447441, 3049323471, 3921009573, 961987163,
   1508970993, 2453635748, 2870763221, 3624381080, 310598401,
   607225278, 1426881987, 1925078388, 2162078206, 2614888103,
   3248222580, 3835390401, 4022224774, 264347078, 604807628,
   770255983, 1249150122, 1555081692, 1996064986, 2554220882,
   2821834349, 2952996808, 3210313671, 3336571891, 3584528711,
   113926993, 338241895, 666307205, 773529912, 1294757372,
   1396182291, 1695183700, 1986661051, 2177026350, 2456956037,
   2730485921, 2820302411, 3259730800, 3345764771, 3516065817,
   3600352804, 4094571909, 275423344, 430227734, 506948616,
   659060556, 883997877, 958139571, 1322822218, 1537002063,
   1747873779, 1955562222, 2024104815, 2227730452, 2361852424,
   2428436474, 2756734187, 3204031479, 3329325298]

/-- The initial SHA-256 hash state (FIPS 180-4, written in decimal). -/

def sha256H0 : List Nat :=
  [1779033703, 3144134277, 1013904242, 2773480762,
   1359893119, 2600822924, 528734635, 1541459225]

/-- SHA-256 message padding over a byte list. -/

def sha256pad (msg : List Nat) : List Nat :=
  let bitLen := 8 * msg.length
  let zeros := (119 - msg.length % 64) % 64
  msg ++ 0x80 :: List.replicate zeros 0 ++
    (List.range 8).map (fun i => (bitLen >>> (8 * (7 - i))) % 256)

/-- Split a byte list into blocks of 64 bytes (fuel-driven recursion). -/

def chunks64 : Nat → List Nat → List (List Nat)
  | 0, _ => []
  | _, [] => []
  | fuel + 1, l => l.take 64 :: chunks64 fuel (l.drop 64)

/-- Group bytes into big-endian 32-bit words. -/

def bytesToWords : List Nat → List Nat
  | b0 :: b1 :: b2 :: b3 :: rest =>
      (((b0 * 256 + b1) * 256 + b2) * 256 + b3) :: bytesToWords rest
  | _ => []

/-- Extend the 16 block words to the 64-entry message schedule. -/

def sha256schedule (w16 : List Nat) : List Nat :=
  (List.range 48).foldl
    (fun w _ =>
      let n := w.length
      let x15 := w.getD (n - 15) 0
      let x2 := w.getD (n - 2) 0
      let s0 := (rotr 7 x15) ^^^ (rotr 18 x15) ^^^ (x15 >>> 3)
      let s1 := (rotr 17 x2) ^^^ (rotr 19 x2) ^^^ (x2 >>> 10)
      w ++ [w32 (w.getD (n - 16) 0 + s0 + w.getD (n - 7) 0 + s1)])
    w16

/-- The eight SHA-256 working variables. -/

structure Hash8 where
  a : Nat
  b : Nat
  c : Nat
  d : Nat
  e : Nat
  f : Nat
  g : Nat
  h : Nat

/-- One SHA-256 compression round. -/

def compressWord (st : Hash8) (ki wi : Nat) : Hash8 :=
  let s1 := (rotr 6 st.e) ^^^ (rotr 11 st.e) ^^^ (rotr 25 st.e)
  let ch := (st.e &&& st.f) ^^^ ((st.e ^^^ 0xffffffff) &&& st.g)
  let temp1 := w32 (st.h + s1 + ch + ki + wi)
  let s0 := (rotr 2 st.a) ^^^ (rotr 13 st.a) ^^^ (rotr 22 st.a)
  let maj := (st.a &&& st.b) ^^^ (st.a &&& st.c) ^^^ (st.b &&& st.c)
  let temp2 := w32 (s0 + maj)
  ⟨w32 (temp1 + temp2), st.a, st.b, st.c, w32 (st.d + temp1), st.e, st.f, st.g⟩

/-- Process one 64-byte block, updating the eight hash words. -/

def processBlock (hs : List Nat) (block : List Nat) : List Nat :=
  let w := sha256schedule (bytesToWords block)
  let s0 : Hash8 :=
    ⟨hs.getD 0 0, hs.getD 1 0, hs.getD 2 0, hs.getD 3 0,
     hs.getD 4 0, hs.getD 5 0, hs.getD 6 0, hs.getD 7 0⟩
  let fin := (List.zip sha256K w).foldl (fun s kw => compressWord s kw.1 kw.2) s0
  [w32 (hs.getD 0 0 + fin.a), w32 (hs.getD 1 0 + fin.b), w32 (hs.getD 2 0 + fin.c),
   w32 (hs.getD 3 0 + fin.d), w32 (hs.getD 4 0 + fin.e), w32 (hs.getD 5 0 + fin.f),
   w32 (hs.getD 6 0 + fin.g), w32 (hs.getD 7 0 + fin.h)]

/-- Lowercase hex digit. -/

def hexChar (n : Nat) : Char := if n < 10 then Char.ofNat (48 + n) else Char.ofNat (87 + n)

/-- Eight-hex-digit rendering of a 32-bit word. -/

def toHex8 (n : Nat) : String :=
  String.mk ((List.range 8).map (fun i => hexChar ((n >>> (4 * (7 - i))) % 16)))

/-- Full SHA-256 hex digest of a byte list. -/

def sha256hexBytes (msg : List Nat) : String :=
  let blocks := chunks64 (msg.length + 72) (sha256pad msg)
  let hs := blocks.foldl processBlock sha256H0
  String.join (hs.map toHex8)

/-- UTF-8 bytes of a string (Python `str.encode()`). -/

def utf8Bytes (s : String) : List Nat := s.toUTF8.toList.map (fun b => b.toNat)

/-- `hashlib.sha256(content.encode()).hexdigest()`. -/

def hexdigest (s : String) : String := sha256hexBytes (utf8Bytes s)

/-! ## Decimal rounding and formatting (Python `f"{x:.2f}"`, `round(x, 2)`, `int(x)`) -/

/-- Round-half-even a rational to an integer; the tie rule used by Python
float formatting and `round`. -/

def roundHalfEven (q : ℚ) : ℤ :=
  let f := ⌊q⌋
  let frac := q - f
  if frac < 1 / 2 then f
  else if 1 / 2 < frac then f + 1
  else if f % 2 = 0 then f else f + 1

/-- The value of a rational rounded to two decimal places, in hundredths:
the number of cents printed by `f"{q:.2f}"`. -/

def pyRound2 (q : ℚ) : ℤ := roundHalfEven (100 * q)

/-- Python `f"{q:.2f}"`: the value rounded (half-even) to two decimals,
rendered with exactly two digits after the point. -/

def format2 (q : ℚ) : String :=
  let c := pyRound2 q
  let sign := if c < 0 then "-" else ""
  let n := c.natAbs
  sign ++ toString (n / 100) ++ "." ++ (if n % 100 < 10 then "0" else "") ++ toString (n % 100)

/-- Python `int(q)`: truncation toward zero. -/

def pyTrunc (q : ℚ) : ℤ := if q < 0 then -⌊-q⌋ else ⌊q⌋

/-! ## Cache keys and render identifiers (`api/valkey.py`) -/

/-- `ValkeyClient.generate_cache_key` (api/valkey.py:63-68): the content
fingerprint `f"avatar:cache:{sha256(f"voice:speed2dp:text").hexdigest()[:16]}"`. -/

def generate_cache_key (voice_id : String) (speed : ℚ) (text : String) : String :=
  let content := voice_id ++ ":" ++ format2 speed ++ ":" ++ text
  "avatar:cache:" ++ (hexdigest content).take 16

/-- `ValkeyClient.generate_render_id` (api/valkey.py:70-75): a fresh id mixing
the render parameters with submission-time entropy (`time.time_ns()`). -/

def generate_render_id (voice_id : String) (speed : ℚ) (text : String) (time_ns : Nat) : String :=
  let content := voice_id ++ ":" ++ format2 speed ++ ":" ++ text ++ ":" ++ toString time_ns
  (hexdigest content).take 24

/-! ## Data model (`api/models.py` and the worker's result dictionaries) -/

/-- `RenderStatus` (api/models.py:9-14). -/

inductive RenderStatus
  | pending
  | processing
  | completed
  | failed
deriving DecidableEq, Repr

/-- `MouthCue` (api/models.py:25-29). -/

structure MouthCue where
  t_ms : ℤ
  viseme : String
  weight : ℚ
deriving DecidableEq, Repr

/-- `EyeEvent` (api/models.py:32-37). -/

structure EyeEvent where
  t_ms : ℤ
  event_type : String
  duration_ms : ℤ
  direction : Option String
deriving DecidableEq, Repr

/-- A stored render result record: the JSON dictionary written under
`avatar:result:<render_id>` and `avatar:cache:<cache_key>`, with the shape
built in `worker.py:process_job` / the initial pending record of
`main.py:render_async`.  Absent dictionary keys are `none`/defaults, matching
the pydantic defaults of `RenderResponse`. -/

structure StoredResult where
  render_id : String
  status : RenderStatus
  audio_url : Option String := none
  duration_ms : Option ℤ := none
  mouth_cues : Option (List MouthCue) := none
  eye_events : Option (List EyeEvent) := none
  cached : Bool := false
  error : Option String := none
  processing_time_ms : Option ℤ := none
deriving DecidableEq, Repr

/-- A render job as enqueued on `avatar:jobs` (main.py:179-186, 259-266). -/

structure RenderJob where
  render_id : String
  cache_key : String
  text : String
  voice_id : String
  speed : ℚ
  audio_base_url : String
deriving DecidableEq, Repr

/-- The capture status record stored under `avatar:capture:status:<job_id>`.
`status`/`progress` are `Option` because `update_job_status` starts from the
bare `{'logs': []}` dictionary when no record exists yet
(capture_processor.py:68-72). -/

structure CaptureStatusRec where
  status : Option String := none
  progress : Option ℤ := none
  logs : List String := []
deriving DecidableEq, Repr

/-- The slice of the Valkey store the orchestration layer reads and writes.
Redis lists keep their Redis orientation: the Lean list head is the Redis
list head (left end), so `LPUSH` is cons and `(B)RPOP` removes the last
element. -/

structure Store where
  /-- `avatar:result:<render_id>` records. -/
  results : String → Option StoredResult
  /-- `avatar:cache:<cache_key>` entries. -/
  cache : String → Option StoredResult
  /-- `avatar:notify:<render_id>` lists. -/
  notify : String → List String
  /-- The `avatar:jobs` list. -/
  renderQueue : List RenderJob
  /-- `avatar:capture:status:<job_id>` records. -/
  captureStatus : String → Option CaptureStatusRec

/-- A store with no keys set. -/

def emptyStore : Store :=
  { results := fun _ => none
    cache := fun _ => none
    notify := fun _ => []
    renderQueue := []
    captureStatus := fun _ => none }

/-! ## Front door (`api/main.py`) -/

/-- Default of the `AUDIO_BASE_URL` environment variable (main.py:55). -/

def AUDIO_BASE_URL : String := "http://localhost:8080/audio"

/-- `check_concurrency_limit` (main.py:64-71): under the `_request_lock`,
increment `_active_requests` only when strictly below the ceiling, else
report failure.  Returns the new counter and the acquired flag. -/

def check_concurrency_limit (maxR : ℕ) (n : ℤ) : ℤ × Bool :=
  if (maxR : ℤ) ≤ n then (n, false) else (n + 1, true)

/-- `release_concurrency_slot` (main.py:74-78): `max(0, n - 1)`. -/

def release_concurrency_slot (n : ℤ) : ℤ := max 0 (n - 1)

/-- `RenderRequest` (api/models.py:40-53). -/

structure RenderRequest where
  text : String
  voice_id : String := "en_US-lessac-medium"
  speed : ℚ := 1
deriving DecidableEq, Repr

/-- The job dictionary built by both render endpoints
(main.py:179-186 and main.py:259-266). -/

def build_render_job (req : RenderRequest) (render_id cache_key : String) : RenderJob :=
  { render_id := render_id
    cache_key := cache_key
    text := req.text
    voice_id := req.voice_id
    speed := req.speed
    audio_base_url := AUDIO_BASE_URL }

/-- `ValkeyClient.set_result` (api/valkey.py:100-104). -/

def set_result (st : Store) (render_id : String) (r : StoredResult) : Store :=
  { st with results := fun k => if k = render_id then some r else st.results k }

/-- `ValkeyClient.enqueue_job` (api/valkey.py:95-98): `LPUSH` on `avatar:jobs`. -/

def enqueue_job (st : Store) (job : RenderJob) : Store :=
  { st with renderQueue := job :: st.renderQueue }

/-- Exit paths of the synchronous render endpoint. -/

inductive SyncOutcome
  | tooManyRequests
  | cachedHit (r : StoredResult)
  | completedResult (r : StoredResult)
  | timeout
deriving DecidableEq, Repr

/-- `render_sync` (main.py:145-214).  `active` is the `_active_requests`
counter; `waitResult` is the outcome of `wait_for_result` (what the blocking
`BRPOP` on the notify key finally observes — worker concurrency abstracted).
Returns the HTTP outcome, the store after the call, and the counter after
the call; the 429 path raises before the `try`, every other path runs the
`finally: release_concurrency_slot()`. -/

def render_sync (maxR : ℕ) (st : Store) (active : ℤ) (req : RenderRequest)
    (time_ns : ℕ) (waitResult : Option StoredResult) :
    SyncOutcome × Store × ℤ :=
  let (active1, acquired) := check_concurrency_limit maxR active
  if ¬acquired then (.tooManyRequests, st, active1)
  else
    let cache_key := generate_cache_key req.voice_id req.speed req.text
    match st.cache cache_key with
    | some r =>
        (.cachedHit { r with cached := true }, st, release_concurrency_slot active1)
    | none =>
        let render_id := generate_render_id req.voice_id req.speed req.text time_ns
        let st1 := enqueue_job st (build_render_job req render_id cache_key)
        match waitResult with
        | none => (.timeout, st1, release_concurrency_slot active1)
        | some r =>
            (.completedResult { r with cached := false }, st1, release_concurrency_slot active1)

/-- `AsyncRenderResponse` (api/models.py:69-73). -/

structure AsyncRenderResponse where
  render_id : String
  status : RenderStatus
  poll_url : String
deriving DecidableEq, Repr

/-- `render_async` (main.py:225-282).  On a cache hit the returned id is
`cached_result.get("render_id", ...)` — the id stored inside the cached
payload (always present there, since every payload written by
`worker.py:store_result` and both front-door writes carries `render_id`);
on a miss a fresh id is derived, a pending record stored and the job
enqueued. -/

def render_async (st : Store) (req : RenderRequest) (time_ns : ℕ) (base_url : String) :
    AsyncRenderResponse × Store :=
  let cache_key := generate_cache_key req.voice_id req.speed req.text
  match st.cache cache_key with
  | some r =>
      let render_id := r.render_id
      let st1 := set_result st render_id r
      ({ render_id := render_id, status := .completed
         poll_url := base_url ++ "/v1/avatar/render/" ++ render_id }, st1)
  | none =>
      let render_id := generate_render_id req.voice_id req.speed req.text time_ns
      let st1 := set_result st render_id { render_id := render_id, status := .pending }
      let st2 := enqueue_job st1 (build_render_job req render_id cache_key)
      ({ render_id := render_id, status := .pending
         poll_url := base_url ++ "/v1/avatar/render/" ++ render_id }, st2)

/-! ## Worker (`worker/worker.py`) -/

/-- Default of the `PIPER_MODEL` environment variable (worker.py:44). -/

def PIPER_MODEL : String := "/opt/piper/voices/en_US-lessac-medium.onnx"

/-- The path `os.path.join(os.path.dirname(PIPER_MODEL), f"voice.onnx")`
probed by `get_voice_model_path`. -/

def voice_model_file (voice_id : String) : String :=
  "/opt/piper/voices/" ++ voice_id ++ ".onnx"

/-- `get_voice_model_path` (worker.py:67-77).  `fileExists` models
`os.path.exists`: when the requested voice's model file is missing the
function logs a warning and returns the default `PIPER_MODEL` — it never
raises. -/

def get_voice_model_path (fileExists : String → Bool) (voice_id : String) : String :=
  let model_path := voice_model_file voice_id
  if fileExists model_path then model_path else PIPER_MODEL

/-- The result of `synthesize_speech` that `process_job` consumes
(worker.py:114-116). -/

structure TTSOutput where
  output_filename : String
  output_path : String
  duration_ms : ℤ
deriving DecidableEq, Repr

/-- Outcome of one run of the render pipeline body (the `try` block of
`process_job`, worker.py:104-163): either every external collaborator
succeeded, yielding the synthesis output, the parsed mouth cues, the eye
events and the measured latency, or some stage raised with an error
message.  External collaborators are black boxes per §6, so this is a
parameter of the model. -/

inductive PipelineOutcome
  | success (tts : TTSOutput) (mouthCues : List MouthCue) (eyeEvents : List EyeEvent)
      (processing_time_ms : ℤ)
  | failure (errMsg : String) (processing_time_ms : ℤ)
deriving DecidableEq, Repr

/-- `update_result_status` (worker.py:185-192): rewrite the status field of
the stored record, only when a record currently exists. -/

def update_result_status (st : Store) (render_id : String) (status : RenderStatus) : Store :=
  match st.results render_id with
  | none => st
  | some r =>
      { st with results := fun k => if k = render_id then some { r with status := status } else st.results k }

/-- `process_job` (worker.py:80-182): set status `processing`, run the
pipeline, and return the result dictionary — `completed` with the payload on
success, `failed` with the error message on any exception (the
`try`/`except` makes the function total). -/

def process_job (st : Store) (job : RenderJob) (outcome : PipelineOutcome) :
    Store × StoredResult :=
  let st1 := update_result_status st job.render_id .processing
  match outcome with
  | .success tts cues eyes pt =>
      (st1,
        { render_id := job.render_id
          status := .completed
          audio_url := some (job.audio_base_url ++ "/" ++ tts.output_filename)
          duration_ms := some tts.duration_ms
          mouth_cues := some cues
          eye_events := some eyes
          cached := false
          error := none
          processing_time_ms := some pt })
  | .failure e pt =>
      (st1,
        { render_id := job.render_id
          status := .failed
          audio_url := none
          duration_ms := none
          mouth_cues := none
          eye_events := none
          cached := false
          error := some e
          processing_time_ms := some pt })

/-- `store_result` (worker.py:195-211): write the result record, cache the
payload only when the status is `completed`, then `LPUSH` the `"ready"`
notify marker for the render id. -/

def store_result (st : Store) (result : StoredResult) (cache_key : String) : Store :=
  let st1 := { st with results := fun k => if k = result.render_id then some result else st.results k }
  let st2 :=
    if result.status = .completed then
      { st1 with cache := fun k => if k = cache_key then some result else st1.cache k }
    else st1
  { st2 with notify := fun k => if k = result.render_id then "ready" :: st2.notify k else st2.notify k }

/-- The render branch of the worker dispatch loop (worker.py:271-287): if a
terminal result record already exists for the job's render id, `continue`
without any pipeline work (returned flag `false`); otherwise process the job
and store the result.  The returned `Bool` records whether `process_job`
ran. -/

def handle_render_job (st : Store) (job : RenderJob) (outcome : PipelineOutcome) :
    Store × Bool :=
  match st.results job.render_id with
  | some existing =>
      if existing.status = .completed ∨ existing.status = .failed then (st, false)
      else
        let (st1, result) := process_job st job outcome
        (store_result st1 result job.cache_key, true)
  | none =>
      let (st1, result) := process_job st job outcome
      (store_result st1 result job.cache_key, true)

/-! ## Capture processor (`worker/capture_processor.py`) -/

/-- `update_job_status` (capture_processor.py:63-86): read the current
record (starting from a bare `{'logs': []}` when absent), overwrite status
and progress, append the log message when non-empty, write back. -/

def update_job_status (st : Store) (job_id : String) (status : String) (progress : ℤ)
    (log_message : String) : Store :=
  let base := (st.captureStatus job_id).getD {}
  let rec' : CaptureStatusRec :=
    { status := some status
      progress := some progress
      logs := base.logs ++ (if log_message = "" then [] else [log_message]) }
  { st with captureStatus := fun k => if k = job_id then some rec' else st.captureStatus k }

/-- The ten pipeline stages of `process_capture_job`
(capture_processor.py:208-263), as the (progress, log) pair each stage
writes before running. -/

def captureStages : List (ℤ × String) :=
  [(10, "→ Normalizing video..."),
   (20, "→ Extracting base face..."),
   (30, "→ Extracting idle loop..."),
   (40, "→ Detecting face landmarks..."),
   (50, "→ Extracting mouth visemes..."),
   (65, "→ Extracting eye states..."),
   (75, "→ Generating masks..."),
   (85, "→ Building mouth spritesheet..."),
   (90, "→ Writing manifest..."),
   (95, "→ Creating ZIP archive...")]

/-- The sequence of `(status, progress, log)` writes `process_capture_job`
performs, given which stage (if any) raises.  A stage's status update runs
before the stage body, so a failure at stage `i` still records that stage's
`processing` write and then the final `('failed', 0, error)` write
(capture_processor.py:279-286); full success ends with
`('completed', 100, ...)` (capture_processor.py:266). -/

def capture_status_writes (failAt : Option (Fin 10)) (errMsg : String) :
    List (String × ℤ × String) :=
  match failAt with
  | none =>
      captureStages.map (fun pm => ("processing", pm.1, pm.2)) ++
        [("completed", 100, "✓ Avatar pack generated successfully!")]
  | some i =>
      (captureStages.take (i.val + 1)).map (fun pm => ("processing", pm.1, pm.2)) ++
        [("failed", 0, "✗ Error: " ++ errMsg)]

/-- `process_capture_job` (capture_processor.py:190-286) restricted to its
status-ledger effect: perform the status writes of the (possibly failing)
pipeline in order.  Filesystem artifacts and the returned dictionary's URL
fields are outside the store model; the returned string is the terminal
status of the result dictionary. -/

def process_capture_job (st : Store) (job_id : String) (failAt : Option (Fin 10))
    (errMsg : String) : Store × String :=
  let st' := (capture_status_writes failAt errMsg).foldl
    (fun s w => update_job_status s job_id w.1 w.2.1 w.2.2) st
  (st', if failAt.isSome then "failed" else "completed")

/-! ## Queue discipline (`api/valkey.py`, `api/capture.py`, `worker/worker.py`)

The render queue `avatar:jobs` is fed by `enqueue_job` with `LPUSH`
(valkey.py:95-98); the capture queue `avatar:capture:jobs` is fed by
`push_job` with `RPUSH` (valkey.py:178-181, called from capture.py:144);
workers drain both with one `BRPOP([avatar:jobs, avatar:capture:jobs])`
(worker.py:247), which pops the tail of the first non-empty list, checking
the render queue first.  Job payloads are abstracted to strings (the JSON
documents). -/

/-- The two queues plus their enqueue and dequeue histories. -/

structure QueueState where
  renderQ : List String
  captureQ : List String
  renderIn : List String
  captureIn : List String
  renderOut : List String
  captureOut : List String
deriving DecidableEq, Repr

/-- Both queues empty, nothing enqueued or served. -/

def initQueues : QueueState := ⟨[], [], [], [], [], []⟩

/-- One observable queue event: an `enqueue_job` `LPUSH`, a `push_job`
`RPUSH`, or one worker `BRPOP` over both keys. -/

inductive QueueOp
  | renderEnq (j : String)
  | captureEnq (j : String)
  | workerPop
deriving DecidableEq, Repr

/-- `BRPOP([avatar:jobs, avatar:capture:jobs])`: take the tail of the
render list if non-empty, else the tail of the capture list, else nothing
(the timed-out pop is a no-op iteration, worker.py:249-251). -/

def brpop2 (s : QueueState) : QueueState :=
  match s.renderQ.getLast? with
  | some j =>
      { s with renderQ := s.renderQ.dropLast, renderOut := s.renderOut ++ [j] }
  | none =>
      match s.captureQ.getLast? with
      | some j =>
          { s with captureQ := s.captureQ.dropLast, captureOut := s.captureOut ++ [j] }
      | none => s

/-- Apply one queue event. -/

def queueStep (s : QueueState) : QueueOp → QueueState
  | .renderEnq j => { s with renderQ := j :: s.renderQ, renderIn := s.renderIn ++ [j] }
  | .captureEnq j => { s with captureQ := s.captureQ ++ [j], captureIn := s.captureIn ++ [j] }
  | .workerPop => brpop2 s

/-- Run a trace of queue events from the empty state. -/

def runQueueOps (ops : List QueueOp) : QueueState := ops.foldl queueStep initQueues

/-! ## Rhubarb output parsing (`worker/lipsync.py`) -/

/-- One entry of the `mouthCues` array in Rhubarb's JSON output
(lipsync.py:121-129); times in seconds.  `stop` is the `"end"` field. -/

structure RhubarbCue where
  start : ℚ
  stop : ℚ
  value : String
deriving DecidableEq, Repr

/-- `VISEME_MAP.get(v, "REST")` (lipsync.py:21-31, 140). -/

def viseme_map_get (v : String) : String :=
  if v = "A" then "AA"
  else if v = "B" then "EE"
  else if v = "C" then "EE"
  else if v = "D" then "AA"
  else if v = "E" then "OH"
  else if v = "F" then "OO"
  else if v = "G" then "FF"
  else if v = "H" then "TH"
  else if v = "X" then "REST"
  else "REST"

/-- `round(weight, 2)` (lipsync.py:149): round half-even at two decimals. -/

def round2 (q : ℚ) : ℚ := (roundHalfEven (100 * q) : ℚ) / 100

/-- The per-cue body of `parse_rhubarb_output` (lipsync.py:134-150):
millisecond timestamps by `int(...)` truncation, viseme mapping with `REST`
default, and a weight `min(1.0, 0.5 + duration_ms / 500)` rounded to two
decimals. -/

def parse_rhubarb_cue (cue : RhubarbCue) : MouthCue :=
  let start_ms := pyTrunc (cue.start * 1000)
  let end_ms := pyTrunc (cue.stop * 1000)
  let viseme := viseme_map_get cue.value
  let duration_ms := end_ms - start_ms
  let weight := min 1 (1 / 2 + (duration_ms : ℚ) / 500)
  { t_ms := start_ms, viseme := viseme, weight := round2 weight }

/-- `parse_rhubarb_output` (lipsync.py:117-155). -/

def parse_rhubarb_output (raw_cues : List RhubarbCue) : List MouthCue :=
  raw_cues.map parse_rhubarb_cue

/-! ## Auxiliary predicates and concrete fixtures

Decidable guard predicates, the atomic admission-counter operation
alphabet, the status-rank order, and the concrete stores, jobs and traces
used by the witness and counterexample theorems below. -/

/-- Concrete store for the C3 witness: a completed record under `rid-1`. -/
def c3store : Store :=
  { emptyStore with
    results := fun k =>
      if k = "rid-1" then some { render_id := "rid-1", status := .completed } else none }

/-- Concrete stale job for the C3 witness. -/
def c3job : RenderJob := build_render_job { text := "hi" } "rid-1" "avatar:cache:feedface"

/-- The idempotency guard of the dispatch loop does not fire: there is no
stored record for the job's render id, or the stored record is not yet
terminal (worker.py:275-281). -/
def NotAlreadyTerminal : Option StoredResult → Prop
  | none => True
  | some r => ¬(r.status = .completed ∨ r.status = .failed)

instance (o : Option StoredResult) : Decidable (NotAlreadyTerminal o) := by
  unfold NotAlreadyTerminal
  cases o <;> infer_instance

/-- Concrete job for the C4 witness. -/
def c4job : RenderJob := build_render_job { text := "hello" } "rid-4" "avatar:cache:0a1b2c"

/-- Concrete successful pipeline outcome for the C4 witness. -/
def c4outcome : PipelineOutcome :=
  .success { output_filename := "rid-4.ogg", output_path := "/data/audio/rid-4.ogg", duration_ms := 1200 }
    [{ t_ms := 0, viseme := "REST", weight := 1 }] [] 40

/-- One atomic mutation of `_active_requests`: both mutations run under
`_request_lock` (main.py:67, 77), so an arbitrary interleaving of
concurrent requests is an arbitrary sequence of these atomic operations. -/
inductive SlotOp
  | acquire
  | release
deriving DecidableEq, Repr

/-- The effect of one atomic slot operation on the counter. -/
def apply_slot_op (maxR : ℕ) (n : ℤ) : SlotOp → ℤ
  | .acquire => (check_concurrency_limit maxR n).1
  | .release => release_concurrency_slot n

/-- The counter after a sequence of atomic slot operations, starting at 0. -/
def run_slot_ops (maxR : ℕ) (ops : List SlotOp) : ℤ :=
  ops.foldl (apply_slot_op maxR) 0

/-- Position of a status in the `pending → processing → {completed, failed}`
lifecycle. -/
def statusRank : RenderStatus → ℕ
  | .pending => 0
  | .processing => 1
  | .completed => 2
  | .failed => 2

/-- Concrete request for the C6 witness. -/
def c6req : RenderRequest := { text := "Hello world" }

/-- Concrete failing pipeline outcome for the C6 witness. -/
def c6outcome : PipelineOutcome := .failure "Rhubarb failed" 75

/-- Concrete request for the C9 theorems. -/
def c9req : RenderRequest := { text := "Hello world" }

/-- The cached payload for the C9 theorems: a completed result produced by
an earlier submission whose render id was `oldid123`. -/
def c9rec : StoredResult :=
  { render_id := "oldid123"
    status := .completed
    audio_url := some "http://localhost:8080/audio/oldid123.ogg"
    duration_ms := some 900
    mouth_cues := some []
    eye_events := some []
    cached := false
    error := none
    processing_time_ms := some 321 }

/-- Store for the C9 theorems: the fingerprint of every request hits the
cached payload `c9rec`, and the earlier submission's result record is still
present under `oldid123`. -/
def c9store : Store :=
  { emptyStore with
    cache := fun _ => some c9rec
    results := fun k => if k = "oldid123" then some c9rec else none }

/-- The trace used by the C5 witness: one render job served, two capture
jobs left queued. -/
def c5ops : List QueueOp := [.renderEnq "r1", .workerPop, .captureEnq "c1", .captureEnq "c2"]

/-- The log list currently recorded for a capture job (empty when no record
exists, matching the bare `{'logs': []}` default of `update_job_status`). -/
def logsAt (st : Store) (job_id : String) : List String :=
  ((st.captureStatus job_id).getD {}).logs

/-- Concrete job with an unsupported voice for the C8 counterexample. -/
def c8job : RenderJob :=
  { render_id := "rid-8"
    cache_key := "avatar:cache:8888"
    text := "hello"
    voice_id := "missing-voice"
    speed := 1
    audio_base_url := AUDIO_BASE_URL }

/-- Concrete synthesis output for the C8 theorems. -/
def c8tts : TTSOutput :=
  { output_filename := "rid-8.ogg", output_path := "/data/audio/rid-8.ogg", duration_ms := 800 }

/-- The Rhubarb cue list used by the C10 witness. -/
def c10cues : List RhubarbCue := [{ start := 0, stop := 1 / 2, value := "A" }]

/-! ## Theorems -/

/-- Claim C1: the fingerprint is a pure deterministic function of
(voice_id, speed rounded to 2 decimals, text): `generate_cache_key` applied
to equal voice ids and texts yields the same key whenever the two speeds
agree after rounding to two decimal places (in particular whenever the
inputs are all equal). -/

theorem generate_cache_key_deterministic (v₁ v₂ t₁ t₂ : String) (s₁ s₂ : ℚ)
    (hv : v₁ = v₂) (ht : t₁ = t₂) (hs : pyRound2 s₁ = pyRound2 s₂) :
    generate_cache_key v₁ s₁ t₁ = generate_cache_key v₂ s₂ t₂ := by
  subst hv ht
  unfold generate_cache_key format2
  rw [hs]

/-- The speeds `1.0` and `1.001` agree after rounding to two decimals. -/

theorem pyRound2_one_eq_pyRound2_1001 : pyRound2 1 = pyRound2 (1001 / 1000) := by
  norm_num [pyRound2, roundHalfEven]

/-- Witness for C1: `1.0` and `1.001` round to the same two decimals, so
they fingerprint identically for the same voice and text. -/

theorem generate_cache_key_deterministic_witness :
    pyRound2 1 = pyRound2 (1001 / 1000) ∧
    generate_cache_key "en_US-lessac-medium" 1 "Hello world" =
      generate_cache_key "en_US-lessac-medium" (1001 / 1000) "Hello world" :=
  ⟨pyRound2_one_eq_pyRound2_1001,
   generate_cache_key_deterministic "en_US-lessac-medium" "en_US-lessac-medium"
     "Hello world" "Hello world" 1 (1001 / 1000) rfl rfl pyRound2_one_eq_pyRound2_1001⟩

/-- Claim C3: a worker that dequeues a render job whose stored
`ResultRecord` is already terminal (`completed` or `failed`) performs no
pipeline work — the store is left untouched (no synthesis, no result, cache
or notify writes) and the dispatch flag reports that `process_job` never
ran, i.e. the loop moves to its next iteration. -/

theorem worker_skips_terminal_render_job (st : Store) (job : RenderJob)
    (outcome : PipelineOutcome) (r : StoredResult)
    (hr : st.results job.render_id = some r)
    (hterm : r.status = .completed ∨ r.status = .failed) :
    handle_render_job st job outcome = (st, false) := by
  simp only [handle_render_job, hr]
  rw [if_pos hterm]

/-- Witness for C3 at a concrete store, job and pipeline outcome. -/

theorem worker_skips_terminal_render_job_witness :
    c3store.results c3job.render_id = some { render_id := "rid-1", status := .completed } ∧
    handle_render_job c3store c3job (.failure "must not run" 0) = (c3store, false) :=
  ⟨rfl,
   worker_skips_terminal_render_job c3store c3job (.failure "must not run" 0)
     { render_id := "rid-1", status := .completed } rfl (Or.inl rfl)⟩

/-- Claim C4: a render job that passes the idempotency guard always ends in
a terminal `ResultRecord` write: the dispatch runs the pipeline (flag
`true`), stores the result under the job's render id with a terminal
status, on success stores a `completed` record and writes the `CacheEntry`
under the job's fingerprint, on failure stores a `failed` record carrying
the error message and leaves the cache entry unchanged, and in both cases
pushes the `"ready"` `NotifyMarker` for the render id.  `handle_render_job`
and `process_job` are total functions, so no exception escapes the dispatch
loop. -/

theorem worker_processed_job_terminal (st : Store) (job : RenderJob)
    (outcome : PipelineOutcome)
    (hguard : NotAlreadyTerminal (st.results job.render_id)) :
    (handle_render_job st job outcome).2 = true
    ∧ (handle_render_job st job outcome).1.results job.render_id =
        some (process_job st job outcome).2
    ∧ ((process_job st job outcome).2.status = .completed ∨
        (process_job st job outcome).2.status = .failed)
    ∧ (∀ tts cues eyes pt, outcome = .success tts cues eyes pt →
        (process_job st job outcome).2.status = .completed ∧
        (process_job st job outcome).2.error = none ∧
        (handle_render_job st job outcome).1.cache job.cache_key =
          some (process_job st job outcome).2)
    ∧ (∀ e pt, outcome = .failure e pt →
        (process_job st job outcome).2.status = .failed ∧
        (process_job st job outcome).2.error = some e ∧
        (handle_render_job st job outcome).1.cache job.cache_key = st.cache job.cache_key)
    ∧ (handle_render_job st job outcome).1.notify job.render_id =
        "ready" :: st.notify job.render_id := by
  cases h : st.results job.render_id with
  | none =>
      cases outcome with
      | success tts cues eyes pt =>
          refine ⟨?_, ?_, ?_, ?_, ?_, ?_⟩ <;>
            simp [handle_render_job, process_job, store_result, update_result_status, h]
      | failure e pt =>
          refine ⟨?_, ?_, ?_, ?_, ?_, ?_⟩ <;>
            simp [handle_render_job, process_job, store_result, update_result_status, h]
  | some r =>
      have hg : ¬(r.status = .completed ∨ r.status = .failed) := by
        rw [h] at hguard; exact hguard
      cases outcome with
      | success tts cues eyes pt =>
          refine ⟨?_, ?_, ?_, ?_, ?_, ?_⟩ <;>
            simp [handle_render_job, process_job, store_result, update_result_status, h, hg]
      | failure e pt =>
          refine ⟨?_, ?_, ?_, ?_, ?_, ?_⟩ <;>
            simp [handle_render_job, process_job, store_result, update_result_status, h, hg]

/-- Witness for C4: a fresh job on the empty store, successful pipeline. -/

theorem worker_processed_job_terminal_witness :
    NotAlreadyTerminal (emptyStore.results c4job.render_id) ∧
    ((handle_render_job emptyStore c4job c4outcome).2 = true
    ∧ (handle_render_job emptyStore c4job c4outcome).1.results c4job.render_id =
        some (process_job emptyStore c4job c4outcome).2
    ∧ ((process_job emptyStore c4job c4outcome).2.status = .completed ∨
        (process_job emptyStore c4job c4outcome).2.status = .failed)
    ∧ (∀ tts cues eyes pt, c4outcome = .success tts cues eyes pt →
        (process_job emptyStore c4job c4outcome).2.status = .completed ∧
        (process_job emptyStore c4job c4outcome).2.error = none ∧
        (handle_render_job emptyStore c4job c4outcome).1.cache c4job.cache_key =
          some (process_job emptyStore c4job c4outcome).2)
    ∧ (∀ e pt, c4outcome = .failure e pt →
        (process_job emptyStore c4job c4outcome).2.status = .failed ∧
        (process_job emptyStore c4job c4outcome).2.error = some e ∧
        (handle_render_job emptyStore c4job c4outcome).1.cache c4job.cache_key =
          emptyStore.cache c4job.cache_key)
    ∧ (handle_render_job emptyStore c4job c4outcome).1.notify c4job.render_id =
        "ready" :: emptyStore.notify c4job.render_id) :=
  ⟨trivial, worker_processed_job_terminal emptyStore c4job c4outcome trivial⟩

/-! ### C2: the admission counter -/

/-- One slot operation preserves `0 ≤ counter ≤ maxR`. -/

theorem slot_invariant_step (maxR : ℕ) (n : ℤ) (op : SlotOp)
    (h0 : 0 ≤ n) (h1 : n ≤ maxR) :
    0 ≤ apply_slot_op maxR n op ∧ apply_slot_op maxR n op ≤ maxR := by
  cases op with
  | acquire =>
      simp only [apply_slot_op, check_concurrency_limit]
      split
      · exact ⟨h0, h1⟩
      · next h => rw [not_le] at h; exact ⟨by omega, by omega⟩
  | release =>
      exact ⟨le_max_left 0 _, max_le (Int.natCast_nonneg maxR) (by omega)⟩

/-- Any sequence of slot operations from a state within bounds stays
within bounds. -/

theorem slot_invariant_run (maxR : ℕ) (ops : List SlotOp) (n : ℤ)
    (h0 : 0 ≤ n) (h1 : n ≤ maxR) :
    0 ≤ ops.foldl (apply_slot_op maxR) n ∧ ops.foldl (apply_slot_op maxR) n ≤ maxR := by
  induction ops generalizing n with
  | nil => exact ⟨h0, h1⟩
  | cons op rest ih =>
      obtain ⟨a, b⟩ := slot_invariant_step maxR n op h0 h1
      exact ih _ a b

/-- Claim C2: under every interleaving of atomic acquires and releases the
admission counter stays in `[0, maxR]`; an acquire at a counter at (or
above) the ceiling fails fast without incrementing (the (N+1)-th concurrent
synchronous request is rejected); and a synchronous request entering with
counter `n ≥ 0` leaves the counter at `n` on every exit path — cache hit,
completed wait, timeout — because the acquired slot is always released
(`finally`), while the rejected path never acquires. -/

theorem admission_counter_bounded (maxR : ℕ) (ops : List SlotOp) (m n : ℤ)
    (st : Store) (req : RenderRequest) (time_ns : ℕ) (waitResult : Option StoredResult)
    (hm : (maxR : ℤ) ≤ m) (hn : 0 ≤ n) :
    (0 ≤ run_slot_ops maxR ops ∧ run_slot_ops maxR ops ≤ maxR)
    ∧ check_concurrency_limit maxR m = (m, false)
    ∧ (render_sync maxR st n req time_ns waitResult).2.2 = n := by
  refine ⟨slot_invariant_run maxR ops 0 le_rfl (Int.natCast_nonneg maxR), ?_, ?_⟩
  · simp [check_concurrency_limit, hm]
  · have hrel : release_concurrency_slot (n + 1) = n := by
      unfold release_concurrency_slot
      rw [add_sub_cancel_right]
      exact max_eq_right hn
    by_cases hc : (maxR : ℤ) ≤ n
    · simp [render_sync, check_concurrency_limit, hc]
    · cases hcache : st.cache (generate_cache_key req.voice_id req.speed req.text) with
      | some r => simp [render_sync, check_concurrency_limit, hc, hcache, hrel]
      | none =>
          cases waitResult <;>
            simp [render_sync, check_concurrency_limit, hc, hcache, hrel]

/-- Witness for C2: ceiling 2, a trace that over-acquires and
over-releases, a rejected check at the ceiling, and a sync request from
counter 1 that ends back at 1. -/

theorem admission_counter_bounded_witness :
    ((2 : ℤ) ≤ 2 ∧ (0 : ℤ) ≤ 1) ∧
    ((0 ≤ run_slot_ops 2 [.acquire, .acquire, .acquire, .release, .release, .release]
      ∧ run_slot_ops 2 [.acquire, .acquire, .acquire, .release, .release, .release] ≤ 2)
    ∧ check_concurrency_limit 2 2 = (2, false)
    ∧ (render_sync 2 emptyStore 1 { text := "witness" } 0 none).2.2 = 1) :=
  ⟨⟨le_rfl, by omega⟩,
   admission_counter_bounded 2 [.acquire, .acquire, .acquire, .release, .release, .release]
     2 1 emptyStore { text := "witness" } 0 none le_rfl (by omega)⟩

/-! ### C6: result-record lifecycle -/

/-- Counterexample to C6: a synchronous submission creates no
`ResultRecord` at all.  Starting from the empty store, `render_sync`
enqueues a job (a submission happened: the queue has one entry) yet the
store holds no result record for any key — `render_sync` (main.py:145-214)
never calls `set_result`, so no pending record is created at submission
time for the sync path. -/

theorem sync_submission_no_pending_record :
    (render_sync 10 emptyStore 0 { text := "Hello world" } 0 none).2.1.renderQueue.length = 1
    ∧ ¬ ∃ k r, (render_sync 10 emptyStore 0 { text := "Hello world" } 0 none).2.1.results k
        = some r := by
  constructor
  · rfl
  · rintro ⟨k, r, hk⟩
    simp [render_sync, check_concurrency_limit, enqueue_job, emptyStore] at hk

/-- Enqueueing a job does not touch the result records. -/

theorem enqueue_job_results (st : Store) (j : RenderJob) :
    (enqueue_job st j).results = st.results := rfl

/-- `set_result` stores the record under the given id. -/

theorem set_result_results_same (st : Store) (rid : String) (r : StoredResult) :
    (set_result st rid r).results rid = some r := by
  simp [set_result]

/-- `update_result_status` on an existing record rewrites only its status. -/

theorem update_result_status_some (st : Store) (rid : String) (r : StoredResult)
    (s : RenderStatus) (h : st.results rid = some r) :
    (update_result_status st rid s).results rid = some { r with status := s } := by
  simp [update_result_status, h]

/-- The store side effect of `process_job` is exactly the `processing`
status update. -/

theorem process_job_store_effect (st : Store) (job : RenderJob) (outcome : PipelineOutcome) :
    (process_job st job outcome).1 = update_result_status st job.render_id .processing := by
  cases outcome <;> rfl

/-- The result dictionary of `process_job` carries the job's render id. -/

theorem process_job_render_id (st : Store) (job : RenderJob) (outcome : PipelineOutcome) :
    (process_job st job outcome).2.render_id = job.render_id := by
  cases outcome <;> rfl

/-- When the stored record is not terminal the dispatch processes and
stores. -/

theorem handle_render_job_nonterminal_store (st : Store) (job : RenderJob)
    (outcome : PipelineOutcome) (r : StoredResult)
    (h : st.results job.render_id = some r)
    (hnt : ¬(r.status = .completed ∨ r.status = .failed)) :
    (handle_render_job st job outcome).1 =
      store_result (process_job st job outcome).1 (process_job st job outcome).2
        job.cache_key := by
  simp only [handle_render_job, h]
  rw [if_neg hnt]

/-- `store_result` stores the record under the result's own render id. -/

theorem store_result_results_same (st : Store) (res : StoredResult) (ck : String) :
    (store_result st res ck).results res.render_id = some res := by
  unfold store_result
  split <;> simp

/-- `store_result` stores the record under any name of its render id. -/

theorem store_result_results_of_id (st : Store) (res : StoredResult) (ck rid : String)
    (h : res.render_id = rid) : (store_result st res ck).results rid = some res := by
  subst h
  exact store_result_results_same st res ck

/-- `process_job` on a successful pipeline yields a completed result. -/

theorem process_job_success_result_status (st : Store) (job : RenderJob) (tts : TTSOutput)
    (cues : List MouthCue) (eyes : List EyeEvent) (pt : ℤ) :
    (process_job st job (.success tts cues eyes pt)).2.status = .completed := rfl

/-- `process_job` on a failing pipeline yields a failed result. -/

theorem process_job_failure_result_status (st : Store) (job : RenderJob) (e : String) (pt : ℤ) :
    (process_job st job (.failure e pt)).2.status = .failed := rfl

/-- Amended C6: on the asynchronous cache-miss path a pending
`ResultRecord` is created at submission time under the fresh render id (the
synchronous path creates none — its record first appears when the worker
stores the terminal result), and across the worker's subsequent writes to
that render id the status only advances
`pending → processing → {completed, failed}`, never moving backward. -/

theorem async_submission_status_monotone (st : Store) (req : RenderRequest) (time_ns : ℕ)
    (base_url : String) (outcome : PipelineOutcome)
    (hmiss : st.cache (generate_cache_key req.voice_id req.speed req.text) = none) :
    (render_async st req time_ns base_url).1.render_id =
      generate_render_id req.voice_id req.speed req.text time_ns
    ∧ (((render_async st req time_ns base_url).2.results
        (generate_render_id req.voice_id req.speed req.text time_ns)).map StoredResult.status
        = some .pending)
    ∧ ((((process_job (render_async st req time_ns base_url).2
          (build_render_job req (generate_render_id req.voice_id req.speed req.text time_ns)
            (generate_cache_key req.voice_id req.speed req.text)) outcome).1).results
        (generate_render_id req.voice_id req.speed req.text time_ns)).map StoredResult.status
        = some .processing)
    ∧ ∃ s, ((((handle_render_job (render_async st req time_ns base_url).2
          (build_render_job req (generate_render_id req.voice_id req.speed req.text time_ns)
            (generate_cache_key req.voice_id req.speed req.text)) outcome).1).results
        (generate_render_id req.voice_id req.speed req.text time_ns)).map StoredResult.status
        = some s)
        ∧ (s = .completed ∨ s = .failed)
        ∧ statusRank .pending ≤ statusRank .processing
        ∧ statusRank .processing ≤ statusRank s := by
  generalize hR : generate_render_id req.voice_id req.speed req.text time_ns = rid
  generalize hC : generate_cache_key req.voice_id req.speed req.text = ck at hmiss ⊢
  have hasync1 : (render_async st req time_ns base_url).1 =
      { render_id := rid, status := .pending
        poll_url := base_url ++ "/v1/avatar/render/" ++ rid } := by
    simp only [render_async]
    rw [hC, hmiss, hR]
  have hasync2 : (render_async st req time_ns base_url).2 =
      enqueue_job (set_result st rid { render_id := rid, status := .pending })
        (build_render_job req rid ck) := by
    simp only [render_async]
    rw [hC, hmiss, hR]
  have hjob : (build_render_job req rid ck).render_id = rid := rfl
  have hst1 : (enqueue_job (set_result st rid { render_id := rid, status := .pending })
      (build_render_job req rid ck)).results rid =
      some { render_id := rid, status := .pending } := by
    rw [enqueue_job_results]
    exact set_result_results_same _ _ _
  have hst1' : (enqueue_job (set_result st rid { render_id := rid, status := .pending })
      (build_render_job req rid ck)).results (build_render_job req rid ck).render_id =
      some { render_id := rid, status := .pending } := by
    rw [hjob]
    exact hst1
  refine ⟨?_, ?_, ?_, ?_⟩
  · rw [hasync1]
  · rw [hasync2, hst1]
    rfl
  · rw [hasync2, process_job_store_effect, hjob, update_result_status_some _ _ _ _ hst1]
    rfl
  · rw [hasync2, handle_render_job_nonterminal_store _ _ _ _ hst1' (by simp)]
    have hres : (process_job
        (enqueue_job (set_result st rid { render_id := rid, status := .pending })
          (build_render_job req rid ck)) (build_render_job req rid ck) outcome).2.render_id
        = rid := (process_job_render_id _ _ _).trans hjob
    cases outcome with
    | success tts cues eyes pt =>
        refine ⟨.completed, ?_, Or.inl rfl, by decide, by decide⟩
        rw [store_result_results_of_id _ _ _ _ hres]
        rfl
    | failure e pt =>
        refine ⟨.failed, ?_, Or.inr rfl, by decide, by decide⟩
        rw [store_result_results_of_id _ _ _ _ hres]
        rfl

/-- Witness for amended C6: async submission of `c6req` on the empty store,
followed by the worker failing the pipeline. -/

theorem async_submission_status_monotone_witness :
    emptyStore.cache (generate_cache_key c6req.voice_id c6req.speed c6req.text) = none
    ∧ ((render_async emptyStore c6req 7 "http://localhost:8000").1.render_id =
      generate_render_id c6req.voice_id c6req.speed c6req.text 7
    ∧ (((render_async emptyStore c6req 7 "http://localhost:8000").2.results
        (generate_render_id c6req.voice_id c6req.speed c6req.text 7)).map StoredResult.status
        = some .pending)
    ∧ ((((process_job (render_async emptyStore c6req 7 "http://localhost:8000").2
          (build_render_job c6req (generate_render_id c6req.voice_id c6req.speed c6req.text 7)
            (generate_cache_key c6req.voice_id c6req.speed c6req.text)) c6outcome).1).results
        (generate_render_id c6req.voice_id c6req.speed c6req.text 7)).map StoredResult.status
        = some .processing)
    ∧ ∃ s, ((((handle_render_job (render_async emptyStore c6req 7 "http://localhost:8000").2
          (build_render_job c6req (generate_render_id c6req.voice_id c6req.speed c6req.text 7)
            (generate_cache_key c6req.voice_id c6req.speed c6req.text)) c6outcome).1).results
        (generate_render_id c6req.voice_id c6req.speed c6req.text 7)).map StoredResult.status
        = some s)
        ∧ (s = .completed ∨ s = .failed)
        ∧ statusRank .pending ≤ statusRank .processing
        ∧ statusRank .processing ≤ statusRank s) :=
  ⟨rfl, async_submission_status_monotone emptyStore c6req 7 "http://localhost:8000" c6outcome rfl⟩

/-! ### C9: asynchronous submit on a cache hit -/

/-- Amended C9: on an asynchronous submit whose fingerprint hits the cache,
the front door writes the cached payload as a `ResultRecord` under the
*cached payload's own* render id — the identifier of the submission that
originally produced the entry, not a fresh identifier for this submission —
and returns that id as the poll handle immediately with status `completed`,
so polling the returned render id yields the cached result
(main.py:239-252). -/

theorem render_async_cache_hit (st : Store) (req : RenderRequest) (time_ns : ℕ)
    (base_url : String) (r : StoredResult)
    (hhit : st.cache (generate_cache_key req.voice_id req.speed req.text) = some r) :
    (render_async st req time_ns base_url).1.render_id = r.render_id
    ∧ (render_async st req time_ns base_url).1.status = .completed
    ∧ (render_async st req time_ns base_url).1.poll_url =
        base_url ++ "/v1/avatar/render/" ++ r.render_id
    ∧ (render_async st req time_ns base_url).2.results r.render_id = some r := by
  have h1 : (render_async st req time_ns base_url).1 =
      { render_id := r.render_id, status := .completed
        poll_url := base_url ++ "/v1/avatar/render/" ++ r.render_id } := by
    simp only [render_async]
    rw [hhit]
  have h2 : (render_async st req time_ns base_url).2 = set_result st r.render_id r := by
    simp only [render_async]
    rw [hhit]
  refine ⟨?_, ?_, ?_, ?_⟩
  · rw [h1]
  · rw [h1]
  · rw [h1]
  · rw [h2]
    exact set_result_results_same st r.render_id r

/-- Counterexample to C9 as stated: on a cache hit, the async endpoint does
*not* return a fresh identifier for this submission — it returns the cached
payload's `render_id` (`cached_result.get("render_id", ...)`,
main.py:243), an identifier under which the store already held a record
before this submission. -/

theorem render_async_hit_reuses_old_id :
    (render_async c9store c9req 99 "http://localhost:8000").1.render_id = "oldid123"
    ∧ c9store.results "oldid123" = some c9rec
    ∧ c9store.results ((render_async c9store c9req 99 "http://localhost:8000").1.render_id)
        ≠ none :=
  ⟨rfl, rfl, fun h => Option.noConfusion h⟩

/-- Witness for amended C9 at the concrete hit store. -/

theorem render_async_cache_hit_witness :
    c9store.cache (generate_cache_key c9req.voice_id c9req.speed c9req.text) = some c9rec
    ∧ ((render_async c9store c9req 99 "http://localhost:8000").1.render_id = c9rec.render_id
    ∧ (render_async c9store c9req 99 "http://localhost:8000").1.status = .completed
    ∧ (render_async c9store c9req 99 "http://localhost:8000").1.poll_url =
        "http://localhost:8000" ++ "/v1/avatar/render/" ++ c9rec.render_id
    ∧ (render_async c9store c9req 99 "http://localhost:8000").2.results c9rec.render_id
        = some c9rec) :=
  ⟨rfl, render_async_cache_hit c9store c9req 99 "http://localhost:8000" c9rec rfl⟩

/-! ### C5: per-queue service order -/

/-- A list with a known last element is its front followed by that element. -/

theorem getLast_eq_some_decomp {α : Type} (q : List α) (j : α) (h : q.getLast? = some j) :
    q = q.dropLast ++ [j] := by
  induction q using List.reverseRecOn with
  | nil => cases h
  | append_singleton l a _ =>
      rw [List.getLast?_concat] at h
      obtain rfl := Option.some.inj h
      rw [List.dropLast_concat]

/-- One queue event preserves the render-queue bookkeeping invariant
`served ++ still-queued-in-reverse = enqueued`. -/

theorem queue_step_render_invariant (s : QueueState) (op : QueueOp)
    (h : s.renderOut ++ s.renderQ.reverse = s.renderIn) :
    (queueStep s op).renderOut ++ (queueStep s op).renderQ.reverse
      = (queueStep s op).renderIn := by
  cases op with
  | renderEnq j =>
      simp only [queueStep]
      rw [List.reverse_cons, ← List.append_assoc, h]
  | captureEnq j =>
      simpa only [queueStep] using h
  | workerPop =>
      simp only [queueStep, brpop2]
      cases hl : s.renderQ.getLast? with
      | none => cases hc : s.captureQ.getLast? <;> simpa using h
      | some j =>
          have hd := getLast_eq_some_decomp s.renderQ j hl
          calc (s.renderOut ++ [j]) ++ s.renderQ.dropLast.reverse
              = s.renderOut ++ ([j] ++ s.renderQ.dropLast.reverse) := by
                rw [List.append_assoc]
            _ = s.renderOut ++ (s.renderQ.dropLast ++ [j]).reverse := by
                rw [List.reverse_append]
                rfl
            _ = s.renderOut ++ s.renderQ.reverse := by rw [← hd]
            _ = s.renderIn := h

/-- One queue event keeps the capture queue a sublist of its enqueue
history (in enqueue order). -/

theorem queue_step_capture_sublist (s : QueueState) (op : QueueOp)
    (h : List.Sublist s.captureQ s.captureIn) :
    List.Sublist (queueStep s op).captureQ (queueStep s op).captureIn := by
  cases op with
  | renderEnq j => simpa only [queueStep] using h
  | captureEnq j =>
      simp only [queueStep]
      exact h.append (List.Sublist.refl [j])
  | workerPop =>
      simp only [queueStep, brpop2]
      cases hl : s.renderQ.getLast? with
      | some j => simpa using h
      | none =>
          cases hc : s.captureQ.getLast? with
          | none => simpa using h
          | some j =>
              simp only []
              exact (List.dropLast_sublist s.captureQ).trans h

/-- The two per-queue invariants hold after any trace from a state
satisfying them. -/

theorem queue_run_invariant_aux (ops : List QueueOp) (s : QueueState)
    (h1 : s.renderOut ++ s.renderQ.reverse = s.renderIn)
    (h2 : List.Sublist s.captureQ s.captureIn) :
    (ops.foldl queueStep s).renderOut ++ (ops.foldl queueStep s).renderQ.reverse
        = (ops.foldl queueStep s).renderIn
    ∧ List.Sublist (ops.foldl queueStep s).captureQ (ops.foldl queueStep s).captureIn := by
  induction ops generalizing s with
  | nil => exact ⟨h1, h2⟩
  | cons op rest ih =>
      exact ih _ (queue_step_render_invariant s op h1) (queue_step_capture_sublist s op h2)

/-- Counterexample to C5 as stated: the capture queue is not FIFO.  Enqueue
job `A` then job `B` on the capture queue (`RPUSH`, valkey.py:178-181); a
worker's `BRPOP` (worker.py:247) then yields `B` before `A` has ever been
yielded — `A` is still queued. -/

theorem capture_queue_not_fifo :
    (runQueueOps [.captureEnq "A", .captureEnq "B", .workerPop]).captureIn = ["A", "B"]
    ∧ (runQueueOps [.captureEnq "A", .captureEnq "B", .workerPop]).captureOut = ["B"]
    ∧ (runQueueOps [.captureEnq "A", .captureEnq "B", .workerPop]).captureQ = ["A"] := by
  refine ⟨?_, ?_, ?_⟩ <;> rfl

/-- Amended C5: the render queue (`LPUSH` + `BRPOP`) is served
first-in-first-out — after any trace of events the sequence of served
render jobs is a prefix of the sequence of enqueued render jobs — while the
capture queue (`RPUSH` + `BRPOP`) is served last-in-first-out: the
still-queued capture jobs remain a sublist of the enqueue order, and a
worker pop that reaches the capture queue takes the most recently enqueued
remaining job (the list's last element). -/

theorem queue_service_order (ops : List QueueOp) :
    ((runQueueOps ops).renderOut ++ (runQueueOps ops).renderQ.reverse
        = (runQueueOps ops).renderIn)
    ∧ List.IsPrefix (runQueueOps ops).renderOut (runQueueOps ops).renderIn
    ∧ List.Sublist (runQueueOps ops).captureQ (runQueueOps ops).captureIn
    ∧ (∀ j, (runQueueOps ops).renderQ = [] →
        (runQueueOps ops).captureQ.getLast? = some j →
        (queueStep (runQueueOps ops) .workerPop).captureOut
          = (runQueueOps ops).captureOut ++ [j]) := by
  obtain ⟨h1, h2⟩ := queue_run_invariant_aux ops initQueues rfl (List.Sublist.refl [])
  refine ⟨h1, ⟨(runQueueOps ops).renderQ.reverse, h1⟩, h2, ?_⟩
  intro j hr hc
  simp [queueStep, brpop2, hr, hc]

/-- Witness for amended C5 at the concrete trace `c5ops`. -/

theorem queue_service_order_witness :
    ((runQueueOps c5ops).renderOut ++ (runQueueOps c5ops).renderQ.reverse
        = (runQueueOps c5ops).renderIn)
    ∧ List.IsPrefix (runQueueOps c5ops).renderOut (runQueueOps c5ops).renderIn
    ∧ List.Sublist (runQueueOps c5ops).captureQ (runQueueOps c5ops).captureIn
    ∧ ((runQueueOps c5ops).renderQ = []
    ∧ (runQueueOps c5ops).captureQ.getLast? = some "c2"
    ∧ (queueStep (runQueueOps c5ops) .workerPop).captureOut
        = (runQueueOps c5ops).captureOut ++ ["c2"]) :=
  ⟨(queue_service_order c5ops).1, (queue_service_order c5ops).2.1,
   (queue_service_order c5ops).2.2.1,
   rfl, rfl, (queue_service_order c5ops).2.2.2 "c2" rfl rfl⟩

/-! ### C7: capture progress and logs -/

/-- A status update with a non-empty message appends exactly that message
to the job's logs. -/

theorem update_job_status_logsAt (st : Store) (job_id status : String) (progress : ℤ)
    (m : String) (hm : ¬(m = "")) :
    logsAt (update_job_status st job_id status progress m) job_id
      = logsAt st job_id ++ [m] := by
  simp [logsAt, update_job_status, hm]

/-- Folding a list of status writes with non-empty messages appends exactly
those messages to the job's logs: the log list is append-only — its length
never decreases and existing entries are never altered or truncated. -/

theorem capture_writes_logs_append (ws : List (String × ℤ × String)) (st : Store)
    (job_id : String) (h : ∀ w ∈ ws, ¬(w.2.2 = "")) :
    logsAt (ws.foldl (fun s w => update_job_status s job_id w.1 w.2.1 w.2.2) st) job_id
      = logsAt st job_id ++ ws.map (fun w => w.2.2) := by
  induction ws generalizing st with
  | nil => simp
  | cons w rest ih =>
      simp only [List.foldl_cons, List.map_cons]
      rw [ih _ (fun x hx => h x (List.mem_cons_of_mem _ hx)),
        update_job_status_logsAt st job_id w.1 w.2.1 w.2.2 (h w (List.mem_cons_self _ _))]
      simp

/-- The final failure message is never the empty string. -/

theorem error_log_ne_empty (err : String) : ¬("✗ Error: " ++ err = "") := by
  intro h
  have hlen := congrArg String.length h
  rw [String.length_append] at hlen
  have h9 : ("✗ Error: ").length = 9 := rfl
  have h0 : ("" : String).length = 0 := rfl
  rw [h9, h0] at hlen
  omega

/-- On full success, the write list is the ten stage writes plus the final
completed write (no occurrence of the error message). -/

theorem capture_status_writes_none (err : String) :
    capture_status_writes none err =
      captureStages.map (fun pm => ("processing", pm.1, pm.2)) ++
        [("completed", 100, "✓ Avatar pack generated successfully!")] := rfl

/-- Every status write of a capture run carries a non-empty log message. -/

theorem capture_status_writes_msgs_ne_empty (failAt : Option (Fin 10)) (err : String) :
    ∀ w ∈ capture_status_writes failAt err, ¬(w.2.2 = "") := by
  cases failAt with
  | none =>
      rw [capture_status_writes_none]
      decide
  | some i =>
      intro w hw
      rcases List.mem_append.1 hw with hl | hr
      · obtain ⟨pm, hpm, rfl⟩ := List.mem_map.1 hl
        have hstage : pm ∈ captureStages := List.mem_of_mem_take hpm
        exact (by decide : ∀ pm ∈ captureStages, ¬(pm.2 = "")) pm hstage
      · obtain rfl := List.mem_singleton.1 hr
        exact error_log_ne_empty err

/-- Counterexample to C7 as stated: a capture job failing at its first
stage reaches the terminal state `failed`, yet its recorded progress
sequence is `[10, 0]` — the final failure write resets progress to 0
(capture_processor.py:282), so the progress sequence of a failed job is
not non-decreasing. -/

theorem capture_failed_progress_not_monotone :
    ((capture_status_writes (some 0) "Video normalization failed").map
        (fun w => w.2.1) = [10, 0])
    ∧ ¬ List.Chain' (· ≤ ·)
        ((capture_status_writes (some 0) "Video normalization failed").map
          (fun w => w.2.1))
    ∧ ((capture_status_writes (some 0) "Video normalization failed").map
        (fun w => w.1)).getLast? = some "failed" := by
  refine ⟨rfl, ?_, rfl⟩
  simp [capture_status_writes, captureStages, List.chain'_cons]

/-- Amended C7: over a capture job's lifetime the log list is append-only
(the run appends exactly its status messages, never altering or truncating
earlier entries); the progress values are non-decreasing across all writes
except that a failed run's final write resets progress to 0 — so the full
progress sequence is non-decreasing for completed jobs, while for failed
jobs it is non-decreasing up to the final `('failed', 0)` write. -/

theorem capture_progress_monotone_and_logs (st : Store) (job_id err : String)
    (failAt : Option (Fin 10)) :
    logsAt (process_capture_job st job_id failAt err).1 job_id
      = logsAt st job_id ++ (capture_status_writes failAt err).map (fun w => w.2.2)
    ∧ List.Chain' (· ≤ ·)
        (((capture_status_writes failAt err).map (fun w => w.2.1)).dropLast)
    ∧ (failAt = none →
        List.Chain' (· ≤ ·) ((capture_status_writes failAt err).map (fun w => w.2.1)))
    ∧ (∀ i, failAt = some i →
        ((capture_status_writes failAt err).map (fun w => w.2.1)).getLast? = some 0
        ∧ ((capture_status_writes failAt err).map (fun w => w.1)).getLast? = some "failed"
        ∧ (process_capture_job st job_id failAt err).2 = "failed") := by
  refine ⟨?_, ?_, ?_, ?_⟩
  · exact capture_writes_logs_append _ st job_id
      (capture_status_writes_msgs_ne_empty failAt err)
  · cases failAt with
    | none => simp [capture_status_writes, captureStages, List.chain'_cons]
    | some i => fin_cases i <;> simp [capture_status_writes, captureStages, List.chain'_cons]
  · intro h
    subst h
    simp [capture_status_writes, captureStages, List.chain'_cons]
  · intro i hi
    subst hi
    refine ⟨?_, ?_, rfl⟩
    · simp [capture_status_writes]
    · simp [capture_status_writes]

/-- Witness for amended C7: a capture job on the empty store failing at its
third stage (idle-loop extraction). -/

theorem capture_progress_monotone_and_logs_witness :
    (logsAt (process_capture_job emptyStore "job-7" (some 2)
        "Idle video extraction failed").1 "job-7"
      = logsAt emptyStore "job-7" ++
        (capture_status_writes (some 2) "Idle video extraction failed").map (fun w => w.2.2))
    ∧ List.Chain' (· ≤ ·)
        (((capture_status_writes (some 2) "Idle video extraction failed").map
          (fun w => w.2.1)).dropLast)
    ∧ (((capture_status_writes (some 2) "Idle video extraction failed").map
        (fun w => w.2.1)).getLast? = some 0
    ∧ ((capture_status_writes (some 2) "Idle video extraction failed").map
        (fun w => w.1)).getLast? = some "failed"
    ∧ (process_capture_job emptyStore "job-7" (some 2)
        "Idle video extraction failed").2 = "failed") :=
  ⟨(capture_progress_monotone_and_logs emptyStore "job-7"
      "Idle video extraction failed" (some 2)).1,
   (capture_progress_monotone_and_logs emptyStore "job-7"
      "Idle video extraction failed" (some 2)).2.1,
   (capture_progress_monotone_and_logs emptyStore "job-7"
      "Idle video extraction failed" (some 2)).2.2.2 2 rfl⟩

/-! ### C8: unsupported voice identifiers -/

/-- Counterexample to C8: with no voice model file on disk
(`fileExists ≡ false`), `get_voice_model_path` does not fail — it silently
substitutes the default `PIPER_MODEL` (a different voice than requested,
worker.py:75-77), and a job whose remaining pipeline succeeds ends
`completed` with no error: the unsupported voice produced no failure. -/

theorem unsupported_voice_no_error :
    get_voice_model_path (fun _ => false) "missing-voice" = PIPER_MODEL
    ∧ PIPER_MODEL ≠ voice_model_file "missing-voice"
    ∧ (process_job emptyStore c8job (.success c8tts [] [] 10)).2.status = .completed
    ∧ (process_job emptyStore c8job (.success c8tts [] [] 10)).2.error = none := by
  refine ⟨rfl, ?_, rfl, rfl⟩
  decide

/-- Amended C8: a render job whose voice identifier has no model file does
*not* fail loudly: `get_voice_model_path` returns the default `PIPER_MODEL`
(logging only a warning), synthesis proceeds with the substituted voice,
and when the rest of the pipeline succeeds the job completes with no error.
A job with an unsupported voice fails only if the pipeline itself fails. -/

theorem get_voice_model_path_fallback (fileExists : String → Bool) (st : Store)
    (job : RenderJob) (tts : TTSOutput) (cues : List MouthCue) (eyes : List EyeEvent)
    (pt : ℤ) (hmissing : fileExists (voice_model_file job.voice_id) = false) :
    get_voice_model_path fileExists job.voice_id = PIPER_MODEL
    ∧ (process_job st job (.success tts cues eyes pt)).2.status = .completed
    ∧ (process_job st job (.success tts cues eyes pt)).2.error = none := by
  refine ⟨?_, rfl, rfl⟩
  simp [get_voice_model_path, hmissing]

/-- Witness for amended C8 at the concrete unsupported-voice job. -/

theorem get_voice_model_path_fallback_witness :
    (fun _ : String => false) (voice_model_file c8job.voice_id) = false
    ∧ (get_voice_model_path (fun _ => false) c8job.voice_id = PIPER_MODEL
    ∧ (process_job emptyStore c8job (.success c8tts [] [] 10)).2.status = .completed
    ∧ (process_job emptyStore c8job (.success c8tts [] [] 10)).2.error = none) :=
  ⟨rfl, get_voice_model_path_fallback (fun _ => false) emptyStore c8job c8tts [] [] 10 rfl⟩

/-! ### C10: mouth-cue weights -/

/-- Truncation toward zero is the ceiling on negatives and the floor
otherwise. -/

theorem pyTrunc_eq (q : ℚ) : pyTrunc q = if q < 0 then ⌈q⌉ else ⌊q⌋ := by
  unfold pyTrunc
  split
  · rw [Int.floor_neg, neg_neg]
  · rfl

/-- Truncation toward zero is monotone. -/

theorem pyTrunc_mono {a b : ℚ} (h : a ≤ b) : pyTrunc a ≤ pyTrunc b := by
  rw [pyTrunc_eq, pyTrunc_eq]
  by_cases ha : a < 0
  · by_cases hb : b < 0
    · rw [if_pos ha, if_pos hb]
      exact Int.ceil_mono h
    · rw [if_pos ha, if_neg hb]
      have h1 : ⌈a⌉ ≤ 0 := Int.ceil_le.mpr (by exact_mod_cast ha.le)
      have h2 : (0 : ℤ) ≤ ⌊b⌋ := Int.floor_nonneg.mpr (not_lt.mp hb)
      omega
  · have hb : ¬ b < 0 := fun hb => ha (lt_of_le_of_lt h hb)
    rw [if_neg ha, if_neg hb]
    exact Int.floor_mono h

/-- Round-half-even never goes below the floor. -/

theorem roundHalfEven_ge_floor (r : ℚ) : ⌊r⌋ ≤ roundHalfEven r := by
  simp only [roundHalfEven]
  split
  · exact le_refl _
  · split
    · omega
    · split <;> omega

/-- Round-half-even never exceeds the ceiling. -/

theorem roundHalfEven_le_ceil (r : ℚ) : roundHalfEven r ≤ ⌈r⌉ := by
  have hfc : ⌊r⌋ ≤ ⌈r⌉ := Int.floor_le_ceil r
  have hlt : ¬(r - ⌊r⌋ < 1 / 2) → ⌊r⌋ + 1 ≤ ⌈r⌉ := by
    intro h
    rw [Int.add_one_le_iff, Int.lt_ceil]
    push_neg at h
    have h0 : (0 : ℚ) < 1 / 2 := by norm_num
    linarith
  simp only [roundHalfEven]
  split
  · exact hfc
  · next hA =>
      split
      · exact hlt hA
      · split
        · exact hfc
        · exact hlt hA

/-- `round(·, 2)` preserves the interval `[1/2, 1]`. -/

theorem round2_bounds {q : ℚ} (h1 : 1 / 2 ≤ q) (h2 : q ≤ 1) :
    1 / 2 ≤ round2 q ∧ round2 q ≤ 1 := by
  unfold round2
  have hge : (50 : ℤ) ≤ roundHalfEven (100 * q) := by
    have hf : (50 : ℤ) ≤ ⌊100 * q⌋ := by
      rw [Int.le_floor]
      push_cast
      linarith
    exact le_trans hf (roundHalfEven_ge_floor _)
  have hle : roundHalfEven (100 * q) ≤ 100 := by
    have hc : ⌈100 * q⌉ ≤ (100 : ℤ) := by
      rw [Int.ceil_le]
      push_cast
      linarith
    exact le_trans (roundHalfEven_le_ceil _) hc
  constructor
  · rw [le_div_iff₀ (by norm_num : (0 : ℚ) < 100)]
    calc (1 / 2 : ℚ) * 100 = 50 := by norm_num
      _ ≤ _ := by exact_mod_cast hge
  · rw [div_le_one (by norm_num : (0 : ℚ) < 100)]
    exact_mod_cast hle

/-- The raw weight `min(1.0, 0.5 + duration_ms / 500)` of a non-negative
duration lies in `[1/2, 1]`. -/

theorem weight_raw_bounds {d : ℤ} (hd : 0 ≤ d) :
    1 / 2 ≤ min (1 : ℚ) (1 / 2 + (d : ℚ) / 500)
    ∧ min (1 : ℚ) (1 / 2 + (d : ℚ) / 500) ≤ 1 := by
  have hdq : (0 : ℚ) ≤ (d : ℚ) := by exact_mod_cast hd
  constructor
  · apply le_min
    · norm_num
    · linarith [div_nonneg hdq (by norm_num : (0 : ℚ) ≤ 500)]
  · exact min_le_left _ _

/-- Claim C10: every Rhubarb mouth cue whose end time is at least its start
time is parsed into a `MouthCue` whose weight lies in `[0.5, 1.0]` — in
particular it never exceeds `1.0` and is non-negative, so every produced
cue satisfies the `MouthCue` schema bound `0.0 ≤ weight ≤ 1.0`. -/

theorem parse_rhubarb_weight_bounds (raw_cues : List RhubarbCue) (c : RhubarbCue)
    (hmem : c ∈ raw_cues) (h : c.start ≤ c.stop) :
    parse_rhubarb_cue c ∈ parse_rhubarb_output raw_cues
    ∧ 1 / 2 ≤ (parse_rhubarb_cue c).weight
    ∧ (parse_rhubarb_cue c).weight ≤ 1
    ∧ 0 ≤ (parse_rhubarb_cue c).weight := by
  have hd : (0 : ℤ) ≤ pyTrunc (c.stop * 1000) - pyTrunc (c.start * 1000) := by
    have hm := pyTrunc_mono (mul_le_mul_of_nonneg_right h (by norm_num : (0 : ℚ) ≤ 1000))
    omega
  have hw := weight_raw_bounds hd
  have hr := round2_bounds hw.1 hw.2
  refine ⟨List.mem_map_of_mem _ hmem, ?_, ?_, ?_⟩
  · exact hr.1
  · exact hr.2
  · exact le_trans (by norm_num : (0 : ℚ) ≤ 1 / 2) hr.1

/-- Witness for C10 at a concrete half-second `A` cue. -/

theorem parse_rhubarb_weight_bounds_witness :
    (({ start := 0, stop := 1 / 2, value := "A" } : RhubarbCue) ∈ c10cues
    ∧ ({ start := 0, stop := 1 / 2, value := "A" } : RhubarbCue).start ≤
        ({ start := 0, stop := 1 / 2, value := "A" } : RhubarbCue).stop)
    ∧ (parse_rhubarb_cue { start := 0, stop := 1 / 2, value := "A" }
        ∈ parse_rhubarb_output c10cues
    ∧ 1 / 2 ≤ (parse_rhubarb_cue { start := 0, stop := 1 / 2, value := "A" }).weight
    ∧ (parse_rhubarb_cue { start := 0, stop := 1 / 2, value := "A" }).weight ≤ 1
    ∧ 0 ≤ (parse_rhubarb_cue { start := 0, stop := 1 / 2, value := "A" }).weight) :=
  ⟨⟨List.mem_singleton_self _, by norm_num⟩,
   parse_rhubarb_weight_bounds c10cues { start := 0, stop := 1 / 2, value := "A" }
     (List.mem_singleton_self _) (by norm_num)⟩

end AvatarServices
